import Mathlib

/-!
Shallow embedding of the `tristate` Rust crate (src/lib.rs): the `TriState`
enum, its derived ordering, and its conversion and resolution operations.
Each definition mirrors one Rust item; theorems below settle the spec claims.
-/

/-- The `TriState` enum from src/lib.rs: variants in declaration order
`False`, `Default`, `True` (the order matters for the derived `Ord`). -/
inductive TriState where
  | False
  | Default
  | True
deriving DecidableEq, Repr

namespace TriState

/-- The discriminant rank induced by declaration order, which is what Rust's
derived `Ord`/`PartialOrd` compare: `False = 0`, `Default = 1`, `True = 2`. -/
def rank : TriState → Nat
  | .False => 0
  | .Default => 1
  | .True => 2

/-- The derived strict comparison `<` on `TriState` (derive `PartialOrd`). -/
def lt (a b : TriState) : Bool := a.rank < b.rank

/-- The derived non-strict comparison `<=` on `TriState` (derive `Ord`). -/
def le (a b : TriState) : Bool := a.rank ≤ b.rank

/-- `impl From<&TriState> for bool` (src/lib.rs lines 111-115):
`t == &TriState::True`. -/
def boolFromRef (t : TriState) : Bool := t = TriState.True

/-- `impl From<TriState> for bool` (src/lib.rs lines 106-108): delegates to
the reference conversion via `Self::from(&t)`. -/
def boolFrom (t : TriState) : Bool := boolFromRef t

/-- `impl From<&TriState> for Option<bool>` (src/lib.rs lines 130-137). -/
def optionBoolFromRef : TriState → Option Bool
  | .False => some false
  | .Default => none
  | .True => some true

/-- `impl From<TriState> for Option<bool>` (src/lib.rs lines 121-123):
delegates to the reference conversion via `Self::from(&t)`. -/
def optionBoolFrom (t : TriState) : Option Bool := optionBoolFromRef t

/-- `TriState::or_else` (src/lib.rs lines 34-36):
`if self == &Self::Default { fallback } else { self.into() }`. -/
def or_else (t : TriState) (fallback : Bool) : Bool :=
  if t = TriState.Default then fallback else boolFromRef t

/-- `TriState::or_else_get` (src/lib.rs lines 40-42):
`if self == &Self::Default { supplier() } else { self.into() }`. -/
def or_else_get (t : TriState) (supplier : Unit → Bool) : Bool :=
  if t = TriState.Default then supplier () else boolFromRef t

/-- `impl From<bool> for TriState` (src/lib.rs lines 52-54):
`if b { Self::True } else { Self::False }`. -/
def fromBool (b : Bool) : TriState :=
  if b then TriState.True else TriState.False

/-- `impl From<Option<bool>> for TriState` (src/lib.rs lines 65-67):
`if let Some(inner) = b { Self::from(inner) } else { Self::Default }`. -/
def fromOptionBool : Option Bool → TriState
  | some inner => fromBool inner
  | none => TriState.Default

/-- `impl Default for TriState` (src/lib.rs lines 70-74): `Self::Default`. -/
def defaultValue : TriState := TriState.Default

/-- `impl Display for TriState` (src/lib.rs lines 76-80): writes `{:?}`, the
derived `Debug` output, which for a fieldless enum is the variant name. -/
def display : TriState → String
  | .False => "False"
  | .Default => "Default"
  | .True => "True"

/-- `impl AsRef<bool> for TriState` (src/lib.rs lines 82-86):
`if self == &Self::True { &true } else { &false }` (value pointed to). -/
def asRefBool (t : TriState) : Bool :=
  if t = TriState.True then true else false

/-- `impl AsRef<Option<bool>> for TriState` (src/lib.rs lines 88-96)
(value pointed to). -/
def asRefOptionBool : TriState → Option Bool
  | .False => some false
  | .Default => none
  | .True => some true

/-- Insertion of an element into a list sorted by the derived `le`
comparison; used to model sorting a sequence of `TriState` values. -/
def insertLe (x : TriState) : List TriState → List TriState
  | [] => [x]
  | y :: ys => if le x y then x :: y :: ys else y :: insertLe x ys

/-- Insertion sort by the derived `le` comparison, modelling sorting a
sequence of `TriState` values under the type's comparison operation. -/
def sortLe : List TriState → List TriState
  | [] => []
  | x :: xs => insertLe x (sortLe xs)

end TriState

/-- C1: for every fallback `b`, `or_else` on `Default` returns `b`, on `True`
returns `true`, and on `False` returns `false` (the boolean value of the
variant). -/
theorem claim_C1_or_else (b : Bool) :
    TriState.or_else TriState.Default b = b ∧
    TriState.or_else TriState.True b = true ∧
    TriState.or_else TriState.False b = false := by
  refine ⟨rfl, rfl, rfl⟩

/-- C2: converting any `Option Bool` to a `TriState` and back is the
identity. -/
theorem claim_C2_option_round_trip (o : Option Bool) :
    TriState.optionBoolFromRef (TriState.fromOptionBool o) = o := by
  rcases o with _ | b
  · rfl
  · cases b <;> rfl

/-- C3: the to-boolean conversion is total (it is a Lean function on all of
`TriState`) and maps `True` to `true`, `False` to `false`, `Default` to
`false`; the by-value and by-reference forms agree everywhere. -/
theorem claim_C3_to_boolean :
    TriState.boolFrom TriState.True = true ∧
    TriState.boolFrom TriState.False = false ∧
    TriState.boolFrom TriState.Default = false ∧
    ∀ t : TriState, TriState.boolFrom t = TriState.boolFromRef t := by
  refine ⟨rfl, rfl, rfl, fun t => rfl⟩

/-- C4: under the derived comparison, `False < Default < True` strictly, and
sorting `[True, False, Default]` by that comparison yields
`[False, Default, True]`. -/
theorem claim_C4_ordering :
    TriState.lt TriState.False TriState.Default = true ∧
    TriState.lt TriState.Default TriState.True = true ∧
    TriState.lt TriState.False TriState.True = true ∧
    TriState.sortLe [TriState.True, TriState.False, TriState.Default] =
      [TriState.False, TriState.Default, TriState.True] := by
  refine ⟨rfl, rfl, rfl, rfl⟩

/-- C5: `or_else_get` on `Default` invokes the supplier and returns its
result; on `True` and `False` it returns the variant's boolean value, and the
result does not depend on the supplier at all. -/
theorem claim_C5_or_else_get (s s' : Unit → Bool) :
    TriState.or_else_get TriState.Default s = s () ∧
    TriState.or_else_get TriState.True s = true ∧
    TriState.or_else_get TriState.False s = false ∧
    TriState.or_else_get TriState.True s = TriState.or_else_get TriState.True s' ∧
    TriState.or_else_get TriState.False s = TriState.or_else_get TriState.False s' := by
  refine ⟨rfl, rfl, rfl, rfl, rfl⟩

/-- C6: converting any `Bool` to a `TriState` and back is the identity. -/
theorem claim_C6_bool_round_trip (b : Bool) :
    TriState.boolFromRef (TriState.fromBool b) = b := by
  cases b <;> rfl

/-- C7: `fromOptionBool` maps `none` to `Default`, `some true` to `True`, and
`some false` to `False`, covering all three `Option Bool` inputs. -/
theorem claim_C7_from_optional :
    TriState.fromOptionBool none = TriState.Default ∧
    TriState.fromOptionBool (some true) = TriState.True ∧
    TriState.fromOptionBool (some false) = TriState.False := by
  refine ⟨rfl, rfl, rfl⟩

/-- C8: the default-value construction yields `Default`, which is distinct
from both `True` and `False`. -/
theorem claim_C8_default :
    TriState.defaultValue = TriState.Default ∧
    TriState.defaultValue ≠ TriState.True ∧
    TriState.defaultValue ≠ TriState.False := by
  refine ⟨rfl, by decide, by decide⟩

/-- C9: the display operation yields exactly the variant's own name with its
exact casing. -/
theorem claim_C9_display :
    TriState.display TriState.False = "False" ∧
    TriState.display TriState.Default = "Default" ∧
    TriState.display TriState.True = "True" := by
  refine ⟨rfl, rfl, rfl⟩

/-- C10: for every `TriState` value, the `AsRef` conversions agree with the
corresponding `From` conversions (in particular both boolean paths map
`Default` to `false`), and likewise for the optional-boolean paths. -/
theorem claim_C10_asref_agrees (t : TriState) :
    TriState.asRefBool t = TriState.boolFrom t ∧
    TriState.asRefOptionBool t = TriState.optionBoolFrom t ∧
    TriState.asRefBool TriState.Default = false ∧
    TriState.boolFrom TriState.Default = false := by
  cases t <;> exact ⟨rfl, rfl, rfl, rfl⟩
